import Mathlib

/-!
Verification of the casting-cost estimation engine (streamlit_app.py).

The cost model is a pipeline of pure arithmetic sub-calculators over a flat
parameter record, combined by `total_costs` into an ordered cost breakdown.
Python floats are modelled as rationals (ℚ); Python dicts (which preserve
insertion order) are modelled as association lists `List (String × ℚ)`.
Python raises an untyped ZeroDivisionError when a division by zero is
executed; since division on ℚ is total in Lean, fallibility is modelled by
making `total_costs` return an `Option`, which is `none` exactly when one of
the divisions in `labour_cost` (by `quantity`) or `tooling_cost` (by
`design_units_produced` and `quantity`) would raise.
-/

/-- The flat parameter record assembled by the UI (`main`, lines 195-325 of
streamlit_app.py) and consumed by the calculation functions.  Numeric values
(Python ints and floats) are modelled as ℚ; enum-like selections as String. -/
structure Params where
  quote : ℚ
  metal : String
  volume_cm3 : ℚ
  density : ℚ
  unit_metal_cost : ℚ
  quantity : ℚ
  shape : ℚ
  accuracy : ℚ
  furnace : String
  f_m : ℚ
  f_p : ℚ
  f_y : ℚ
  f_eta : ℚ
  f_r : ℚ
  designers_count : ℚ
  design_hours : ℚ
  salary_high_qual : ℚ
  design_rejection : ℚ
  technicians_count : ℚ
  labor_hours : ℚ
  salary_technical : ℚ
  activity_rejection : ℚ
  mold_sand_weight : ℚ
  mold_sand_cost : ℚ
  core_sand_weight : ℚ
  core_sand_cost : ℚ
  sand_recycle_factor : ℚ
  misc_material_cost : ℚ
  mold_rejection_factor : ℚ
  core_rejection_factor : ℚ
  energy_cost : ℚ
  melting_energy : ℚ
  holding_energy : ℚ
  holding_time : ℚ
  other_energy_rate : ℚ
  software_updates_cost : ℚ
  design_units_produced : ℚ
  tooling_consumables_cost : ℚ
  equipment_maintenance_cost : ℚ
  machining_cost_per_hour : ℚ
  machining_time : ℚ
  admin_percentage : ℚ
  depr_percentage : ℚ
  fettling_labor_hours : ℚ
  fettling_labor_rate : ℚ
  fettling_equipment_cost : ℚ
  heat_treatment_energy : ℚ
  heat_treatment_labor_rate : ℚ
  heat_treatment_labor_hours : ℚ
  ndt_cost_per_part : ℚ
  inspection_labor_hours : ℚ
  inspection_labor_rate : ℚ
  pressure_testing_labor_hours : ℚ
  pressure_testing_labor_rate : ℚ
  pressure_testing_equipment_cost : ℚ
  radiography_cost_per_part : ℚ
  plating_cost : ℚ
deriving DecidableEq

/-- Python `dict.get(key, default)` on a string-keyed association list. -/
def dictGet {α : Type} (table : List (String × α)) (key : String) (dflt : α) : α :=
  match table with
  | [] => dflt
  | (k, v) :: rest => if k = key then v else dictGet rest key dflt

/-- REJECTION_FACTORS table (lines 23-26). -/
def REJECTION_FACTORS : List (String × List (String × ℚ)) :=
  [("Grey Iron", [("High", 1.08), ("Medium", 1.035), ("Low", 1.01)]),
   ("Steel", [("High", 1.095), ("Medium", 1.075), ("Low", 1.025)])]

/-- The rejection-factor lookup performed by the UI (line 231):
`REJECTION_FACTORS.get(params['metal'], dict()).get(quality, 1.0)`. -/
def rejection_factor (metal quality : String) : ℚ :=
  dictGet (dictGet REJECTION_FACTORS metal []) quality 1.0

/-- Part mass in kg, the expression `params['density'] * (params['volume_cm3'] / 1e6)`
computed identically in `direct_material_cost` (line 31) and `energy_cost` (line 60). -/
def mass_kg (p : Params) : ℚ :=
  p.density * (p.volume_cm3 / 1e6)

/-- direct_material_cost (lines 29-32). -/
def direct_material_cost (p : Params) : ℚ :=
  mass_kg p * p.unit_metal_cost * p.f_m * p.f_p

/-- indirect_material_cost (lines 34-42). -/
def indirect_material_cost (p : Params) : ℚ :=
  let mould_sand := p.mold_sand_weight * p.mold_sand_cost
      * p.sand_recycle_factor * p.f_r * p.mold_rejection_factor
  let core_sand := p.core_sand_weight * p.core_sand_cost
      * p.sand_recycle_factor * p.f_r * p.core_rejection_factor
  mould_sand + core_sand + p.misc_material_cost

/-- labour_cost (lines 44-56).  The two divisions by `quantity` are total on ℚ;
`total_costs` below accounts for the ZeroDivisionError Python raises here
when `quantity == 0`. -/
def labour_cost (p : Params) : ℚ :=
  let highly_qualified := p.design_rejection * p.salary_high_qual
      * p.designers_count * p.design_hours / p.quantity
  let technical := p.f_r * p.activity_rejection * p.salary_technical
      * p.technicians_count * p.labor_hours / p.quantity
  highly_qualified + technical

/-- The `melting` term of energy_cost (lines 61-62). -/
def melting_term (p : Params) : ℚ :=
  p.energy_cost * p.melting_energy * (mass_kg p * 1.3) / 1000

/-- energy_cost (lines 58-65). -/
def energy_cost (p : Params) : ℚ :=
  let melting := melting_term p
  let holding := p.energy_cost * p.holding_energy
      * p.holding_time * (mass_kg p * 1.3) / 1000
  melting + holding + mass_kg p * p.other_energy_rate

/-- tooling_cost (lines 67-73).  Divisions by `design_units_produced` and
`quantity` are total on ℚ; `total_costs` accounts for the ZeroDivisionError
Python raises here when either is zero. -/
def tooling_cost (p : Params) : ℚ :=
  let software := p.software_updates_cost / p.design_units_produced
  let consumables := p.tooling_consumables_cost / p.quantity
  let maintenance := p.equipment_maintenance_cost / p.quantity
  let machining := p.machining_cost_per_hour * p.machining_time
  software + consumables + maintenance + machining

/-- post_casting_costs (lines 75-89): the dict of seven line items, in
insertion order. -/
def post_casting_costs (p : Params) : List (String × ℚ) :=
  [("Fettling", p.fettling_labor_hours * p.fettling_labor_rate
      + p.fettling_equipment_cost),
   ("Heat Treatment", p.heat_treatment_energy * p.energy_cost
      + p.heat_treatment_labor_hours * p.heat_treatment_labor_rate),
   ("NDT", p.ndt_cost_per_part),
   ("Pressure Testing", p.pressure_testing_labor_hours * p.pressure_testing_labor_rate
      + p.pressure_testing_equipment_cost),
   ("Final Inspection", p.inspection_labor_hours * p.inspection_labor_rate),
   ("Radiography", p.radiography_cost_per_part),
   ("Plating", p.plating_cost)]

/-- overhead_cost (lines 91-95). -/
def overhead_cost (p : Params) (manufacturing_cost : ℚ) : ℚ :=
  let admin := manufacturing_cost * p.admin_percentage / 100
  let depreciation := manufacturing_cost * p.depr_percentage / 100
  admin + depreciation

/-- The 4-tuple returned by total_costs (line 123). -/
structure CostResult where
  cost_breakdown : List (String × ℚ)
  post_casting : List (String × ℚ)
  profit_loss : ℚ
  profit_loss_percent : ℚ
deriving DecidableEq

/-- total_costs (lines 97-123).  The guard models the untyped
ZeroDivisionError Python raises inside `labour_cost` (quantity) and
`tooling_cost` (design_units_produced, quantity) and propagates out of
`total_costs` uncaught: no result is produced exactly when one of those
divisors is zero.  There is no other validation in the source. -/
def total_costs (p : Params) : Option CostResult :=
  if p.quantity = 0 ∨ p.design_units_produced = 0 then none else
  let direct_mat := direct_material_cost p
  let indirect_mat := indirect_material_cost p
  let material_cost := direct_mat + indirect_mat
  let labour := labour_cost p
  let energy := energy_cost p
  let tooling_val := tooling_cost p
  let post_casting := post_casting_costs p
  let post_casting_total := (post_casting.map Prod.snd).sum
  let manufacturing_cost := material_cost + labour + energy + tooling_val + post_casting_total
  let overheads := overhead_cost p manufacturing_cost
  let total_cost := manufacturing_cost + overheads
  let profit_loss := p.quote - total_cost
  let profit_loss_percent := if p.quote = 0 then 0 else profit_loss / p.quote * 100
  some { cost_breakdown :=
          [("Direct Material", direct_mat),
           ("Indirect Material", indirect_mat),
           ("Labour", labour),
           ("Energy", energy),
           ("Tooling", tooling_val),
           ("Post Casting", post_casting_total),
           ("Overheads", overheads),
           ("Total", total_cost),
           ("Profit/Loss", profit_loss)],
         post_casting := post_casting,
         profit_loss := profit_loss,
         profit_loss_percent := profit_loss_percent }

/-- Value lookup in an ordered breakdown (category to amount), defaulting to 0. -/
def getCost (breakdown : List (String × ℚ)) (key : String) : ℚ :=
  dictGet breakdown key 0

/-- The default parameter record presented by the UI (Grey Iron, Cupola
furnace, High quality), with the slider/input defaults of lines 196-325. -/
def defaultParams : Params where
  quote := 1000
  metal := "Grey Iron"
  volume_cm3 := 1830
  density := 7100
  unit_metal_cost := 1
  quantity := 5000
  shape := 30
  accuracy := 35
  furnace := "Cupola"
  f_m := 1.085
  f_p := 1.03
  f_y := 0.76
  f_eta := 3.25
  f_r := 1.08
  designers_count := 2
  design_hours := 40
  salary_high_qual := 60
  design_rejection := 1.1
  technicians_count := 3
  labor_hours := 8
  salary_technical := 25
  activity_rejection := 1.05
  mold_sand_weight := 5
  mold_sand_cost := 0.05
  core_sand_weight := 1
  core_sand_cost := 0.10
  sand_recycle_factor := 0.7
  misc_material_cost := 0
  mold_rejection_factor := 1.05
  core_rejection_factor := 1.05
  energy_cost := 0.10
  melting_energy := 580
  holding_energy := 0.4
  holding_time := 30
  other_energy_rate := 0.50
  software_updates_cost := 5000
  design_units_produced := 50
  tooling_consumables_cost := 200
  equipment_maintenance_cost := 1000
  machining_cost_per_hour := 40
  machining_time := 2
  admin_percentage := 10
  depr_percentage := 20
  fettling_labor_hours := 0.5
  fettling_labor_rate := 25
  fettling_equipment_cost := 5
  heat_treatment_energy := 50
  heat_treatment_labor_rate := 30
  heat_treatment_labor_hours := 1
  ndt_cost_per_part := 15
  inspection_labor_hours := 0.5
  inspection_labor_rate := 25
  pressure_testing_labor_hours := 0.5
  pressure_testing_labor_rate := 35
  pressure_testing_equipment_cost := 20
  radiography_cost_per_part := 25
  plating_cost := 45

/-- A degenerate record: every numeric field 0 except the amortizing divisors,
which are 1.  Used to instantiate theorems at a concretely computable input. -/
def zeroParams : Params where
  quote := 0
  metal := ""
  volume_cm3 := 0
  density := 0
  unit_metal_cost := 0
  quantity := 1
  shape := 0
  accuracy := 0
  furnace := ""
  f_m := 0
  f_p := 0
  f_y := 0
  f_eta := 0
  f_r := 0
  designers_count := 0
  design_hours := 0
  salary_high_qual := 0
  design_rejection := 0
  technicians_count := 0
  labor_hours := 0
  salary_technical := 0
  activity_rejection := 0
  mold_sand_weight := 0
  mold_sand_cost := 0
  core_sand_weight := 0
  core_sand_cost := 0
  sand_recycle_factor := 0
  misc_material_cost := 0
  mold_rejection_factor := 0
  core_rejection_factor := 0
  energy_cost := 0
  melting_energy := 0
  holding_energy := 0
  holding_time := 0
  other_energy_rate := 0
  software_updates_cost := 0
  design_units_produced := 1
  tooling_consumables_cost := 0
  equipment_maintenance_cost := 0
  machining_cost_per_hour := 0
  machining_time := 0
  admin_percentage := 0
  depr_percentage := 0
  fettling_labor_hours := 0
  fettling_labor_rate := 0
  fettling_equipment_cost := 0
  heat_treatment_energy := 0
  heat_treatment_labor_rate := 0
  heat_treatment_labor_hours := 0
  ndt_cost_per_part := 0
  inspection_labor_hours := 0
  inspection_labor_rate := 0
  pressure_testing_labor_hours := 0
  pressure_testing_labor_rate := 0
  pressure_testing_equipment_cost := 0
  radiography_cost_per_part := 0
  plating_cost := 0

/-- The all-zero result that `total_costs` produces on `zeroParams`. -/
def zeroResult : CostResult where
  cost_breakdown :=
    [("Direct Material", 0), ("Indirect Material", 0), ("Labour", 0),
     ("Energy", 0), ("Tooling", 0), ("Post Casting", 0), ("Overheads", 0),
     ("Total", 0), ("Profit/Loss", 0)]
  post_casting :=
    [("Fettling", 0), ("Heat Treatment", 0), ("NDT", 0),
     ("Pressure Testing", 0), ("Final Inspection", 0), ("Radiography", 0),
     ("Plating", 0)]
  profit_loss := 0
  profit_loss_percent := 0

/-- C1: for every parameter record on which total_costs succeeds, the Total
entry of the returned breakdown equals the exact sum of the seven non-Total,
non-derived categories: Direct Material + Indirect Material + Labour +
Energy + Tooling + Post Casting + Overheads.  (This holds for all records,
in particular those with non-negative values and positive divisors.) -/
theorem total_is_sum_of_categories (p : Params) (r : CostResult)
    (h : total_costs p = some r) :
    getCost r.cost_breakdown "Total" =
      getCost r.cost_breakdown "Direct Material"
      + getCost r.cost_breakdown "Indirect Material"
      + getCost r.cost_breakdown "Labour"
      + getCost r.cost_breakdown "Energy"
      + getCost r.cost_breakdown "Tooling"
      + getCost r.cost_breakdown "Post Casting"
      + getCost r.cost_breakdown "Overheads" := by
  unfold total_costs at h
  split at h
  · exact Option.noConfusion h
  · injection h with h
    subst h
    simp [getCost, dictGet]

/-- C1 witness: the invariant instantiated at the concrete record zeroParams. -/
theorem total_is_sum_of_categories_witness :
    getCost zeroResult.cost_breakdown "Total" =
      getCost zeroResult.cost_breakdown "Direct Material"
      + getCost zeroResult.cost_breakdown "Indirect Material"
      + getCost zeroResult.cost_breakdown "Labour"
      + getCost zeroResult.cost_breakdown "Energy"
      + getCost zeroResult.cost_breakdown "Tooling"
      + getCost zeroResult.cost_breakdown "Post Casting"
      + getCost zeroResult.cost_breakdown "Overheads" :=
  total_is_sum_of_categories zeroParams zeroResult (by with_unfolding_all rfl)

/-- C3: the Post Casting entry of the main breakdown is the exact sum of the
seven post-casting line items of the sub-mapping, and that sub-mapping (the
dict built by post_casting_costs) is returned alongside the breakdown. -/
theorem post_casting_entry_is_sum (p : Params) (r : CostResult)
    (h : total_costs p = some r) :
    getCost r.cost_breakdown "Post Casting" =
      getCost r.post_casting "Fettling"
      + getCost r.post_casting "Heat Treatment"
      + getCost r.post_casting "NDT"
      + getCost r.post_casting "Pressure Testing"
      + getCost r.post_casting "Final Inspection"
      + getCost r.post_casting "Radiography"
      + getCost r.post_casting "Plating" ∧
    r.post_casting = post_casting_costs p := by
  unfold total_costs at h
  split at h
  · exact Option.noConfusion h
  · injection h with h
    subst h
    refine ⟨?_, rfl⟩
    simp [getCost, dictGet, post_casting_costs]
    ring

/-- C3 witness: instantiated at the concrete record zeroParams. -/
theorem post_casting_entry_is_sum_witness :
    (getCost zeroResult.cost_breakdown "Post Casting" =
      getCost zeroResult.post_casting "Fettling"
      + getCost zeroResult.post_casting "Heat Treatment"
      + getCost zeroResult.post_casting "NDT"
      + getCost zeroResult.post_casting "Pressure Testing"
      + getCost zeroResult.post_casting "Final Inspection"
      + getCost zeroResult.post_casting "Radiography"
      + getCost zeroResult.post_casting "Plating") ∧
    zeroResult.post_casting = post_casting_costs zeroParams :=
  post_casting_entry_is_sum zeroParams zeroResult (by with_unfolding_all rfl)

/-- C7: total_costs returns profit_loss = quote - Total, and the percent is
profit_loss / quote * 100 when quote is nonzero, else 0 (no division). -/
theorem profit_loss_spec (p : Params) (r : CostResult)
    (h : total_costs p = some r) :
    r.profit_loss = p.quote - getCost r.cost_breakdown "Total" ∧
    r.profit_loss_percent =
      if p.quote = 0 then 0 else 100 * r.profit_loss / p.quote := by
  unfold total_costs at h
  split at h
  · exact Option.noConfusion h
  · injection h with h
    subst h
    constructor
    · simp [getCost, dictGet]
    · simp only
      split
      · rfl
      · ring

/-- C7 witness: instantiated at the concrete record zeroParams (quote = 0,
so the percent is reported as zero). -/
theorem profit_loss_spec_witness :
    (zeroResult.profit_loss =
      zeroParams.quote - getCost zeroResult.cost_breakdown "Total") ∧
    zeroResult.profit_loss_percent =
      if zeroParams.quote = 0 then 0 else
        100 * zeroResult.profit_loss / zeroParams.quote :=
  profit_loss_spec zeroParams zeroResult (by with_unfolding_all rfl)

/-- C10: whenever total_costs succeeds, the breakdown has exactly the nine
keys Direct Material, Indirect Material, Labour, Energy, Tooling,
Post Casting, Overheads, Total, Profit/Loss, in that order; in particular a
Profit/Loss entry is always present and material cost is split into
separate Direct and Indirect entries. -/
theorem breakdown_keys_fixed (p : Params) (r : CostResult)
    (h : total_costs p = some r) :
    r.cost_breakdown.map Prod.fst =
      ["Direct Material", "Indirect Material", "Labour", "Energy", "Tooling",
       "Post Casting", "Overheads", "Total", "Profit/Loss"] := by
  unfold total_costs at h
  split at h
  · exact Option.noConfusion h
  · injection h with h
    subst h
    rfl

/-- C10 witness: instantiated at the concrete record zeroParams. -/
theorem breakdown_keys_fixed_witness :
    zeroResult.cost_breakdown.map Prod.fst =
      ["Direct Material", "Indirect Material", "Labour", "Energy", "Tooling",
       "Post Casting", "Overheads", "Total", "Profit/Loss"] :=
  breakdown_keys_fixed zeroParams zeroResult (by with_unfolding_all rfl)

/-- C9: the collected parameters f_y (yield factor), f_eta (furnace
efficiency), shape (shape complexity) and accuracy (accuracy index) are
never read by any calculation function: changing them (all else fixed)
leaves the result of total_costs — breakdown, post-casting sub-mapping and
profit/loss figures — identical. -/
theorem collected_params_unused (p : Params) (fy feta sh acc : ℚ) :
    total_costs { p with f_y := fy, f_eta := feta, shape := sh, accuracy := acc }
      = total_costs p := rfl

/-- C2 counterexample: a record whose quantity is negative (-1).  The claim
says any zero-or-negative amortizing divisor signals a typed InvalidInput
error and produces no breakdown; the code performs no such validation and
computes a breakdown for this record. -/
def negativeQuantityParams : Params :=
  { defaultParams with quantity := -1 }

/-- C2 counterexample: with quantity = -1 (negative), total_costs produces a
breakdown result and signals no error, contradicting the claim. -/
theorem negative_divisor_produces_result :
    negativeQuantityParams.quantity = -1 ∧
    (total_costs negativeQuantityParams).isSome = true :=
  ⟨by with_unfolding_all rfl, by with_unfolding_all rfl⟩

/-- C2 amended: the code performs no validation at all.  The calculation
produces no result exactly when an amortizing divisor is zero (where Python
raises an untyped ZeroDivisionError at the division itself, modelled as
`none`); for negative divisors the computation proceeds and returns a
breakdown.  No typed InvalidInput error is signaled before the division. -/
theorem no_result_iff_zero_divisor (p : Params) :
    total_costs p = none ↔ p.quantity = 0 ∨ p.design_units_produced = 0 := by
  unfold total_costs
  split
  · simp_all
  · simp_all

/-- C4: for the scenario density=7100, volume_cm3=1830, unit_metal_cost=1,
f_m=1.085, f_p=1.03, melting_energy=580, energy_cost=0.10 (the default
parameter record): mass is exactly 12.993 kg, direct material cost is
12.993 * 1.0 * 1.085 * 1.03, within 0.001 of 14.52, and the melting term of
energy_cost is 0.10 * 580 * (12.993 * 1.3) / 1000, within 0.001 of 0.98. -/
theorem scenario_mass_direct_material_melting :
    mass_kg defaultParams = 12.993 ∧
    direct_material_cost defaultParams = 12.993 * 1.0 * 1.085 * 1.03 ∧
    |direct_material_cost defaultParams - 14.52| < 0.001 ∧
    melting_term defaultParams = 0.10 * 580 * (12.993 * 1.3) / 1000 ∧
    |melting_term defaultParams - 0.98| < 0.001 := by
  refine ⟨by with_unfolding_all rfl, by with_unfolding_all rfl, ?_,
    by with_unfolding_all rfl, ?_⟩
  · rw [abs_sub_lt_iff]
    constructor <;> norm_num [direct_material_cost, mass_kg, defaultParams]
  · rw [abs_sub_lt_iff]
    constructor <;> norm_num [melting_term, mass_kg, defaultParams]

/-- On success, the Direct Material entry of the breakdown is the value of
direct_material_cost. -/
lemma getCost_direct (p : Params) (r : CostResult) (h : total_costs p = some r) :
    getCost r.cost_breakdown "Direct Material" = direct_material_cost p := by
  unfold total_costs at h
  split at h
  · exact Option.noConfusion h
  · injection h with h
    subst h
    simp [getCost, dictGet]

/-- On success, the Total entry of the breakdown is the manufacturing cost
(sum of the six leaf categories) plus the overhead computed on it. -/
lemma getCost_total (p : Params) (r : CostResult) (h : total_costs p = some r) :
    getCost r.cost_breakdown "Total" =
      direct_material_cost p + indirect_material_cost p + labour_cost p
      + energy_cost p + tooling_cost p + ((post_casting_costs p).map Prod.snd).sum
      + overhead_cost p
          (direct_material_cost p + indirect_material_cost p + labour_cost p
           + energy_cost p + tooling_cost p
           + ((post_casting_costs p).map Prod.snd).sum) := by
  unfold total_costs at h
  split at h
  · exact Option.noConfusion h
  · injection h with h
    subst h
    simp [getCost, dictGet]

/-- C5 counterexample input: the default record with density set to 0. -/
def zeroDensityParams : Params :=
  { defaultParams with density := 0 }

/-- C5 counterexample: with density = 0, raising unit_metal_cost from 1 to 2
(all else fixed) leaves the Direct Material entry and the whole result of
total_costs unchanged (mass is 0, so Direct Material stays 0), so the strict
increase asserted by the claim fails for this pair of records. -/
theorem unit_metal_cost_increase_not_strict :
    zeroDensityParams.unit_metal_cost = 1 ∧
    ({ zeroDensityParams with unit_metal_cost := 2 }).unit_metal_cost = 2 ∧
    direct_material_cost { zeroDensityParams with unit_metal_cost := 2 }
      = direct_material_cost zeroDensityParams ∧
    total_costs { zeroDensityParams with unit_metal_cost := 2 }
      = total_costs zeroDensityParams :=
  ⟨by with_unfolding_all rfl, by with_unfolding_all rfl,
   by with_unfolding_all rfl, by with_unfolding_all rfl⟩

/-- C5 amended: for records with positive density, volume, f_m and f_p (so
the part mass and the material multipliers are positive) and non-negative
overhead percentages, strictly increasing unit_metal_cost while holding all
else fixed strictly increases the Direct Material entry and the Total entry
of the breakdown. -/
theorem unit_metal_cost_strict_mono (p : Params) (c : ℚ)
    (hden : 0 < p.density) (hvol : 0 < p.volume_cm3)
    (hfm : 0 < p.f_m) (hfp : 0 < p.f_p)
    (hadmin : 0 ≤ p.admin_percentage) (hdepr : 0 ≤ p.depr_percentage)
    (hc : p.unit_metal_cost < c)
    (r r2 : CostResult)
    (h : total_costs p = some r)
    (h2 : total_costs { p with unit_metal_cost := c } = some r2) :
    getCost r.cost_breakdown "Direct Material"
      < getCost r2.cost_breakdown "Direct Material" ∧
    getCost r.cost_breakdown "Total" < getCost r2.cost_breakdown "Total" := by
  have eI : indirect_material_cost { p with unit_metal_cost := c }
      = indirect_material_cost p := rfl
  have eL : labour_cost { p with unit_metal_cost := c } = labour_cost p := rfl
  have eE : energy_cost { p with unit_metal_cost := c } = energy_cost p := rfl
  have eT : tooling_cost { p with unit_metal_cost := c } = tooling_cost p := rfl
  have eP : post_casting_costs { p with unit_metal_cost := c }
      = post_casting_costs p := rfl
  have eD : direct_material_cost { p with unit_metal_cost := c }
      = mass_kg p * c * p.f_m * p.f_p := rfl
  have hmass : 0 < mass_kg p := by
    unfold mass_kg
    exact mul_pos hden (div_pos hvol (by norm_num))
  have hdm : direct_material_cost p
      < direct_material_cost { p with unit_metal_cost := c } := by
    rw [eD]
    unfold direct_material_cost
    nlinarith [mul_pos (mul_pos (mul_pos hmass hfm) hfp) (sub_pos.2 hc)]
  constructor
  · rw [getCost_direct p r h, getCost_direct _ r2 h2]
    exact hdm
  · rw [getCost_total p r h, getCost_total _ r2 h2, eI, eL, eE, eT, eP]
    unfold overhead_cost
    simp only
    nlinarith [hdm, mul_nonneg (sub_nonneg.2 hdm.le) hadmin,
      mul_nonneg (sub_nonneg.2 hdm.le) hdepr]

/-- Input for the C5 witness: mass is exactly 1 kg and the material
multipliers are 1, with every other cost input zero. -/
def unitMassParams : Params :=
  { zeroParams with density := 1000000, volume_cm3 := 1, f_m := 1, f_p := 1 }

/-- Result of total_costs on unitMassParams with unit_metal_cost = 1. -/
def unitMassResult : CostResult where
  cost_breakdown :=
    [("Direct Material", 1), ("Indirect Material", 0), ("Labour", 0),
     ("Energy", 0), ("Tooling", 0), ("Post Casting", 0), ("Overheads", 0),
     ("Total", 1), ("Profit/Loss", -1)]
  post_casting :=
    [("Fettling", 0), ("Heat Treatment", 0), ("NDT", 0),
     ("Pressure Testing", 0), ("Final Inspection", 0), ("Radiography", 0),
     ("Plating", 0)]
  profit_loss := -1
  profit_loss_percent := 0

/-- C5 witness: the amended monotonicity instantiated at unitMassParams with
unit_metal_cost raised from 0 to 1. -/
theorem unit_metal_cost_strict_mono_witness :
    getCost zeroResult.cost_breakdown "Direct Material"
      < getCost unitMassResult.cost_breakdown "Direct Material" ∧
    getCost zeroResult.cost_breakdown "Total"
      < getCost unitMassResult.cost_breakdown "Total" :=
  unit_metal_cost_strict_mono unitMassParams 1
    (by norm_num [unitMassParams, zeroParams])
    (by norm_num [unitMassParams, zeroParams])
    (by norm_num [unitMassParams, zeroParams])
    (by norm_num [unitMassParams, zeroParams])
    (by norm_num [unitMassParams, zeroParams])
    (by norm_num [unitMassParams, zeroParams])
    (by norm_num [unitMassParams, zeroParams])
    zeroResult unitMassResult
    (by with_unfolding_all rfl) (by with_unfolding_all rfl)

/-- Non-negativity of every numeric input read by the calculators, with the
amortizing divisors (quantity, design_units_produced) strictly positive. -/
structure NonnegInputs (p : Params) : Prop where
  density_nn : 0 ≤ p.density
  volume_nn : 0 ≤ p.volume_cm3
  unit_metal_cost_nn : 0 ≤ p.unit_metal_cost
  quantity_pos : 0 < p.quantity
  f_m_nn : 0 ≤ p.f_m
  f_p_nn : 0 ≤ p.f_p
  f_r_nn : 0 ≤ p.f_r
  designers_nn : 0 ≤ p.designers_count
  design_hours_nn : 0 ≤ p.design_hours
  salary_high_nn : 0 ≤ p.salary_high_qual
  design_rejection_nn : 0 ≤ p.design_rejection
  technicians_nn : 0 ≤ p.technicians_count
  labor_hours_nn : 0 ≤ p.labor_hours
  salary_technical_nn : 0 ≤ p.salary_technical
  activity_rejection_nn : 0 ≤ p.activity_rejection
  mold_sand_weight_nn : 0 ≤ p.mold_sand_weight
  mold_sand_cost_nn : 0 ≤ p.mold_sand_cost
  core_sand_weight_nn : 0 ≤ p.core_sand_weight
  core_sand_cost_nn : 0 ≤ p.core_sand_cost
  sand_recycle_nn : 0 ≤ p.sand_recycle_factor
  misc_nn : 0 ≤ p.misc_material_cost
  mold_rej_nn : 0 ≤ p.mold_rejection_factor
  core_rej_nn : 0 ≤ p.core_rejection_factor
  energy_cost_nn : 0 ≤ p.energy_cost
  melting_energy_nn : 0 ≤ p.melting_energy
  holding_energy_nn : 0 ≤ p.holding_energy
  holding_time_nn : 0 ≤ p.holding_time
  other_energy_nn : 0 ≤ p.other_energy_rate
  software_nn : 0 ≤ p.software_updates_cost
  dup_pos : 0 < p.design_units_produced
  consumables_nn : 0 ≤ p.tooling_consumables_cost
  maintenance_nn : 0 ≤ p.equipment_maintenance_cost
  machining_rate_nn : 0 ≤ p.machining_cost_per_hour
  machining_time_nn : 0 ≤ p.machining_time
  admin_nn : 0 ≤ p.admin_percentage
  depr_nn : 0 ≤ p.depr_percentage
  fettling_hours_nn : 0 ≤ p.fettling_labor_hours
  fettling_rate_nn : 0 ≤ p.fettling_labor_rate
  fettling_equipment_nn : 0 ≤ p.fettling_equipment_cost
  ht_energy_nn : 0 ≤ p.heat_treatment_energy
  ht_rate_nn : 0 ≤ p.heat_treatment_labor_rate
  ht_hours_nn : 0 ≤ p.heat_treatment_labor_hours
  ndt_nn : 0 ≤ p.ndt_cost_per_part
  inspection_hours_nn : 0 ≤ p.inspection_labor_hours
  inspection_rate_nn : 0 ≤ p.inspection_labor_rate
  pt_hours_nn : 0 ≤ p.pressure_testing_labor_hours
  pt_rate_nn : 0 ≤ p.pressure_testing_labor_rate
  pt_equipment_nn : 0 ≤ p.pressure_testing_equipment_cost
  radiography_nn : 0 ≤ p.radiography_cost_per_part
  plating_nn : 0 ≤ p.plating_cost

lemma mass_kg_nonneg (p : Params) (hn : NonnegInputs p) : 0 ≤ mass_kg p :=
  mul_nonneg hn.density_nn (div_nonneg hn.volume_nn (by norm_num))

lemma direct_material_cost_nonneg (p : Params) (hn : NonnegInputs p) :
    0 ≤ direct_material_cost p :=
  mul_nonneg (mul_nonneg (mul_nonneg (mass_kg_nonneg p hn)
    hn.unit_metal_cost_nn) hn.f_m_nn) hn.f_p_nn

lemma indirect_material_cost_nonneg (p : Params) (hn : NonnegInputs p) :
    0 ≤ indirect_material_cost p := by
  unfold indirect_material_cost
  have h1 : 0 ≤ p.mold_sand_weight * p.mold_sand_cost * p.sand_recycle_factor
      * p.f_r * p.mold_rejection_factor :=
    mul_nonneg (mul_nonneg (mul_nonneg (mul_nonneg hn.mold_sand_weight_nn
      hn.mold_sand_cost_nn) hn.sand_recycle_nn) hn.f_r_nn) hn.mold_rej_nn
  have h2 : 0 ≤ p.core_sand_weight * p.core_sand_cost * p.sand_recycle_factor
      * p.f_r * p.core_rejection_factor :=
    mul_nonneg (mul_nonneg (mul_nonneg (mul_nonneg hn.core_sand_weight_nn
      hn.core_sand_cost_nn) hn.sand_recycle_nn) hn.f_r_nn) hn.core_rej_nn
  exact add_nonneg (add_nonneg h1 h2) hn.misc_nn

lemma labour_cost_nonneg (p : Params) (hn : NonnegInputs p) :
    0 ≤ labour_cost p := by
  unfold labour_cost
  have h1 : 0 ≤ p.design_rejection * p.salary_high_qual * p.designers_count
      * p.design_hours / p.quantity :=
    div_nonneg (mul_nonneg (mul_nonneg (mul_nonneg hn.design_rejection_nn
      hn.salary_high_nn) hn.designers_nn) hn.design_hours_nn) hn.quantity_pos.le
  have h2 : 0 ≤ p.f_r * p.activity_rejection * p.salary_technical
      * p.technicians_count * p.labor_hours / p.quantity :=
    div_nonneg (mul_nonneg (mul_nonneg (mul_nonneg (mul_nonneg hn.f_r_nn
      hn.activity_rejection_nn) hn.salary_technical_nn) hn.technicians_nn)
      hn.labor_hours_nn) hn.quantity_pos.le
  exact add_nonneg h1 h2

lemma energy_cost_nonneg (p : Params) (hn : NonnegInputs p) :
    0 ≤ energy_cost p := by
  unfold energy_cost melting_term
  have hmass := mass_kg_nonneg p hn
  have h1 : 0 ≤ p.energy_cost * p.melting_energy * (mass_kg p * 1.3) / 1000 :=
    div_nonneg (mul_nonneg (mul_nonneg hn.energy_cost_nn hn.melting_energy_nn)
      (mul_nonneg hmass (by norm_num))) (by norm_num)
  have h2 : 0 ≤ p.energy_cost * p.holding_energy * p.holding_time
      * (mass_kg p * 1.3) / 1000 :=
    div_nonneg (mul_nonneg (mul_nonneg (mul_nonneg hn.energy_cost_nn
      hn.holding_energy_nn) hn.holding_time_nn)
      (mul_nonneg hmass (by norm_num))) (by norm_num)
  exact add_nonneg (add_nonneg h1 h2) (mul_nonneg hmass hn.other_energy_nn)

lemma tooling_cost_nonneg (p : Params) (hn : NonnegInputs p) :
    0 ≤ tooling_cost p := by
  unfold tooling_cost
  have h1 : 0 ≤ p.software_updates_cost / p.design_units_produced :=
    div_nonneg hn.software_nn hn.dup_pos.le
  have h2 : 0 ≤ p.tooling_consumables_cost / p.quantity :=
    div_nonneg hn.consumables_nn hn.quantity_pos.le
  have h3 : 0 ≤ p.equipment_maintenance_cost / p.quantity :=
    div_nonneg hn.maintenance_nn hn.quantity_pos.le
  exact add_nonneg (add_nonneg (add_nonneg h1 h2) h3)
    (mul_nonneg hn.machining_rate_nn hn.machining_time_nn)

lemma post_casting_entries_nonneg (p : Params) (hn : NonnegInputs p) :
    ∀ kv ∈ post_casting_costs p, 0 ≤ kv.2 := by
  intro kv hkv
  simp only [post_casting_costs, List.mem_cons, List.not_mem_nil, or_false] at hkv
  rcases hkv with rfl | rfl | rfl | rfl | rfl | rfl | rfl
  · exact add_nonneg (mul_nonneg hn.fettling_hours_nn hn.fettling_rate_nn)
      hn.fettling_equipment_nn
  · exact add_nonneg (mul_nonneg hn.ht_energy_nn hn.energy_cost_nn)
      (mul_nonneg hn.ht_hours_nn hn.ht_rate_nn)
  · exact hn.ndt_nn
  · exact add_nonneg (mul_nonneg hn.pt_hours_nn hn.pt_rate_nn)
      hn.pt_equipment_nn
  · exact mul_nonneg hn.inspection_hours_nn hn.inspection_rate_nn
  · exact hn.radiography_nn
  · exact hn.plating_nn

lemma post_casting_sum_nonneg (p : Params) (hn : NonnegInputs p) :
    0 ≤ ((post_casting_costs p).map Prod.snd).sum := by
  have h := post_casting_entries_nonneg p hn
  simp only [post_casting_costs, List.mem_cons, List.not_mem_nil,
    or_false] at h
  simp only [post_casting_costs, List.map_cons, List.map_nil, List.sum_cons,
    List.sum_nil, add_zero]
  have h1 := h _ (Or.inl rfl)
  have h2 := h _ (Or.inr (Or.inl rfl))
  have h3 := h _ (Or.inr (Or.inr (Or.inl rfl)))
  have h4 := h _ (Or.inr (Or.inr (Or.inr (Or.inl rfl))))
  have h5 := h _ (Or.inr (Or.inr (Or.inr (Or.inr (Or.inl rfl)))))
  have h6 := h _ (Or.inr (Or.inr (Or.inr (Or.inr (Or.inr (Or.inl rfl))))))
  have h7 := h _ (Or.inr (Or.inr (Or.inr (Or.inr (Or.inr (Or.inr rfl))))))
  simp only at h1 h2 h3 h4 h5 h6 h7
  linarith

lemma overhead_cost_nonneg (p : Params) (hn : NonnegInputs p)
    (m : ℚ) (hm : 0 ≤ m) : 0 ≤ overhead_cost p m := by
  unfold overhead_cost
  exact add_nonneg (div_nonneg (mul_nonneg hm hn.admin_nn) (by norm_num))
    (div_nonneg (mul_nonneg hm hn.depr_nn) (by norm_num))

/-- C6: for every record whose numeric inputs are non-negative (quantity and
design_units_produced positive), every leaf (non-Total, non-Profit/Loss)
category of the breakdown returned by total_costs is non-negative, and so is
every entry of the post-casting sub-mapping. -/
theorem leaf_categories_nonneg (p : Params) (hn : NonnegInputs p)
    (r : CostResult) (h : total_costs p = some r) :
    0 ≤ getCost r.cost_breakdown "Direct Material" ∧
    0 ≤ getCost r.cost_breakdown "Indirect Material" ∧
    0 ≤ getCost r.cost_breakdown "Labour" ∧
    0 ≤ getCost r.cost_breakdown "Energy" ∧
    0 ≤ getCost r.cost_breakdown "Tooling" ∧
    0 ≤ getCost r.cost_breakdown "Post Casting" ∧
    0 ≤ getCost r.cost_breakdown "Overheads" ∧
    ∀ kv ∈ r.post_casting, 0 ≤ kv.2 := by
  have hmanu : 0 ≤ direct_material_cost p + indirect_material_cost p
      + labour_cost p + energy_cost p + tooling_cost p
      + ((post_casting_costs p).map Prod.snd).sum := by
    have := direct_material_cost_nonneg p hn
    have := indirect_material_cost_nonneg p hn
    have := labour_cost_nonneg p hn
    have := energy_cost_nonneg p hn
    have := tooling_cost_nonneg p hn
    have := post_casting_sum_nonneg p hn
    linarith
  unfold total_costs at h
  split at h
  · exact Option.noConfusion h
  · injection h with h
    subst h
    simp only [getCost, dictGet]
    norm_num
    refine ⟨direct_material_cost_nonneg p hn, indirect_material_cost_nonneg p hn,
      labour_cost_nonneg p hn, energy_cost_nonneg p hn, tooling_cost_nonneg p hn,
      post_casting_sum_nonneg p hn, ?_,
      fun a b hab => post_casting_entries_nonneg p hn (a, b) hab⟩
    exact overhead_cost_nonneg p hn _ hmanu

/-- C6 witness: instantiated at the concrete record zeroParams. -/
theorem leaf_categories_nonneg_witness :
    0 ≤ getCost zeroResult.cost_breakdown "Direct Material" ∧
    0 ≤ getCost zeroResult.cost_breakdown "Indirect Material" ∧
    0 ≤ getCost zeroResult.cost_breakdown "Labour" ∧
    0 ≤ getCost zeroResult.cost_breakdown "Energy" ∧
    0 ≤ getCost zeroResult.cost_breakdown "Tooling" ∧
    0 ≤ getCost zeroResult.cost_breakdown "Post Casting" ∧
    0 ≤ getCost zeroResult.cost_breakdown "Overheads" ∧
    ∀ kv ∈ zeroResult.post_casting, 0 ≤ kv.2 :=
  leaf_categories_nonneg zeroParams
    (by constructor <;> norm_num [zeroParams])
    zeroResult (by with_unfolding_all rfl)

/-- Python dict.get falls back to the default when the key is absent. -/
lemma dictGet_eq_default {α : Type} (t : List (String × α)) (k : String) (d : α)
    (h : k ∉ t.map Prod.fst) : dictGet t k d = d := by
  induction t with
  | nil => rfl
  | cons kv rest ih =>
    obtain ⟨a, b⟩ := kv
    simp only [List.map_cons, List.mem_cons] at h
    push_neg at h
    rw [dictGet, if_neg (fun hak => h.1 hak.symm)]
    exact ih h.2

/-- C8: the rejection-factor lookup returns the neutral factor 1.0 when the
metal has no entry in REJECTION_FACTORS, or when the quality level is absent
from the metal's sub-table, and returns the table value for pairs that are
present; it never signals an error. -/
theorem rejection_factor_lookup (metal quality : String) :
    (metal ∉ REJECTION_FACTORS.map Prod.fst →
      rejection_factor metal quality = 1) ∧
    (∀ subtable, (metal, subtable) ∈ REJECTION_FACTORS →
      quality ∉ subtable.map Prod.fst →
      rejection_factor metal quality = 1) ∧
    (∀ subtable v, (metal, subtable) ∈ REJECTION_FACTORS →
      (quality, v) ∈ subtable →
      rejection_factor metal quality = v) := by
  refine ⟨?_, ?_, ?_⟩
  · intro h
    unfold rejection_factor
    rw [dictGet_eq_default _ _ _ h]
    norm_num [dictGet]
  · intro subtable hmem hq
    simp only [REJECTION_FACTORS, List.mem_cons, List.not_mem_nil, or_false,
      Prod.mk.injEq] at hmem
    unfold rejection_factor
    rcases hmem with ⟨h1, h2⟩ | ⟨h1, h2⟩ <;> subst h1 <;> subst h2
    · rw [show dictGet REJECTION_FACTORS "Grey Iron" [] =
          [("High", 1.08), ("Medium", 1.035), ("Low", 1.01)] from rfl,
        dictGet_eq_default _ _ _ hq]
      norm_num
    · rw [show dictGet REJECTION_FACTORS "Steel" [] =
          [("High", 1.095), ("Medium", 1.075), ("Low", 1.025)] from rfl,
        dictGet_eq_default _ _ _ hq]
      norm_num
  · intro subtable v hmem hqv
    simp only [REJECTION_FACTORS, List.mem_cons, List.not_mem_nil, or_false,
      Prod.mk.injEq] at hmem
    rcases hmem with ⟨h1, h2⟩ | ⟨h1, h2⟩ <;> subst h1 <;> subst h2 <;>
      simp only [List.mem_cons, List.not_mem_nil, or_false,
        Prod.mk.injEq] at hqv <;>
    · rcases hqv with ⟨hq, hv⟩ | ⟨hq, hv⟩ | ⟨hq, hv⟩ <;> subst hq <;> subst hv <;>
        with_unfolding_all rfl

/-- C8 witness: Aluminum has no entry in REJECTION_FACTORS, so any quality
yields the neutral factor 1; (Grey Iron, Medium) is present and yields the
table value 1.035. -/
theorem rejection_factor_lookup_witness :
    rejection_factor "Aluminum" "High" = 1 ∧
    rejection_factor "Grey Iron" "Medium" = 1.035 :=
  ⟨(rejection_factor_lookup "Aluminum" "High").1 (by simp [REJECTION_FACTORS]),
   (rejection_factor_lookup "Grey Iron" "Medium").2.2
     [("High", 1.08), ("Medium", 1.035), ("Low", 1.01)] 1.035
     (by simp [REJECTION_FACTORS]) (by simp)⟩
